import Mathlib

/-!
Verification development for the AI code-transformation platform.

The definitions below are a shallow embedding of the Python source:

* `src/src/core/engine.py` — plan parsing (`create_code_transformations`),
  plan application (`implement_transformations`), environment provisioning
  (`create_execution_environment`), validation (`run_code_validation`),
  the CLI pipeline (`main`) and teardown (`cleanup_resources`);
* `src/src/web/interface.py` — the SSE pipeline driver
  (`stream_generation_events.event_generator`).

Pure string/list manipulation is translated directly; effectful code
(filesystem, subprocess, remote sandbox) is embedded as explicit state
passing over a filesystem model plus injected outcomes for the opaque
external collaborators (network, subprocess results).
-/

/-! ## Character constants

Written via code points so that brace/quote characters never appear as
literal tokens in the file. -/

def lbraceC : Char := Char.ofNat 123

def rbraceC : Char := Char.ofNat 125

def dquoteC : Char := Char.ofNat 34

def bslashC : Char := Char.ofNat 92

def squoteS : String := String.singleton (Char.ofNat 39)

/-! ## Python-style `str.find` / `str.rfind` / slicing

`engine.py` locates the JSON payload with
`content.find` / `content.rfind` and a slice; we reproduce
those exact semantics, including the `-1` not-found convention. -/

def findIdxC (c : Char) : List Char → Option Nat
  | [] => none
  | x :: xs => if x = c then some 0 else (findIdxC c xs).map (· + 1)

def rfindIdxC (c : Char) (l : List Char) : Option Nat :=
  (findIdxC c l.reverse).map (fun i => l.length - 1 - i)

def pyIdx (n : Nat) (i : Int) : Nat :=
  if i < 0 then (Int.toNat (i + n)) else min i.toNat n

def pySlice (l : List Char) (a b : Int) : List Char :=
  (l.take (pyIdx l.length b)).drop (pyIdx l.length a)

/-- Models `engine.py` lines 220-222:
`start_idx = content.find('\x7b'); end_idx = content.rfind('\x7d') + 1;
json_str = content[start_idx:end_idx]`. -/
def extractJson (content : String) : String :=
  let cs := content.data
  let s : Int := match findIdxC lbraceC cs with
    | some i => (i : Int)
    | none => -1
  let e : Int := (match rfindIdxC rbraceC cs with
    | some i => (i : Int)
    | none => -1) + 1
  String.mk (pySlice cs s e)

/-! ## JSON values and a fuel-based parser modelling `json.loads` -/

inductive JVal where
  | jnull : JVal
  | jbool : Bool → JVal
  | jnum : Int → JVal
  | jstr : String → JVal
  | jarr : List JVal → JVal
  | jobj : List (String × JVal) → JVal

def skipWs : List Char → List Char
  | [] => []
  | c :: cs => if c = ' ' ∨ c = '\n' ∨ c = '\t' ∨ c = '\r' then skipWs cs else c :: cs

def unescapeChar (c : Char) : Option Char :=
  if c = dquoteC then some dquoteC
  else if c = bslashC then some bslashC
  else if c = '/' then some '/'
  else if c = 'n' then some '\n'
  else if c = 't' then some '\t'
  else if c = 'r' then some '\r'
  else none

def parseStrChars : Nat → List Char → Option (List Char × List Char)
  | 0, _ => none
  | _ + 1, [] => none
  | fuel + 1, c :: rest =>
    if c = dquoteC then some ([], rest)
    else if c = bslashC then
      match rest with
      | [] => none
      | e :: rest2 =>
        match unescapeChar e, parseStrChars fuel rest2 with
        | some ch, some (s, r) => some (ch :: s, r)
        | _, _ => none
    else
      match parseStrChars fuel rest with
      | some (s, r) => some (c :: s, r)
      | none => none

def takeDigits : List Char → (List Char × List Char)
  | [] => ([], [])
  | c :: rest =>
    if c.isDigit then
      let (ds, r) := takeDigits rest
      (c :: ds, r)
    else ([], c :: rest)

def digitsVal (ds : List Char) : Nat :=
  ds.foldl (fun a c => a * 10 + (c.toNat - 48)) 0

def parseFieldsAux (pv : List Char → Option (JVal × List Char)) :
    Nat → List Char → Option (List (String × JVal) × List Char)
  | 0, _ => none
  | fuel + 1, cs =>
    match skipWs cs with
    | [] => none
    | c :: rest =>
      if c = dquoteC then
        match parseStrChars (rest.length + 1) rest with
        | none => none
        | some (keyChars, r1) =>
          match skipWs r1 with
          | [] => none
          | d :: r3 =>
            if d = ':' then
              match pv r3 with
              | none => none
              | some (v, r4) =>
                match skipWs r4 with
                | [] => none
                | e :: r6 =>
                  if e = ',' then
                    match parseFieldsAux pv fuel r6 with
                    | some (fs, r7) => some ((String.mk keyChars, v) :: fs, r7)
                    | none => none
                  else if e = rbraceC then some ([(String.mk keyChars, v)], r6)
                  else none
            else none
      else none

def parseArrAux (pv : List Char → Option (JVal × List Char)) :
    Nat → List Char → Option (List JVal × List Char)
  | 0, _ => none
  | fuel + 1, cs =>
    match pv cs with
    | none => none
    | some (v, r1) =>
      match skipWs r1 with
      | [] => none
      | e :: r2 =>
        if e = ',' then
          match parseArrAux pv fuel r2 with
          | some (xs, r3) => some (v :: xs, r3)
          | none => none
        else if e = ']' then some ([v], r2)
        else none

def parseJ : Nat → List Char → Option (JVal × List Char)
  | 0, _ => none
  | fuel + 1, cs0 =>
    match skipWs cs0 with
    | [] => none
    | c :: rest =>
      if c = dquoteC then
        match parseStrChars (rest.length + 1) rest with
        | some (s, r) => some (JVal.jstr (String.mk s), r)
        | none => none
      else if c = lbraceC then
        match skipWs rest with
        | [] => none
        | d :: r2 =>
          if d = rbraceC then some (JVal.jobj [], r2)
          else
            match parseFieldsAux (parseJ fuel) (rest.length + 1) (d :: r2) with
            | some (fs, r3) => some (JVal.jobj fs, r3)
            | none => none
      else if c = '[' then
        match skipWs rest with
        | [] => none
        | d :: r2 =>
          if d = ']' then some (JVal.jarr [], r2)
          else
            match parseArrAux (parseJ fuel) (rest.length + 1) (d :: r2) with
            | some (xs, r3) => some (JVal.jarr xs, r3)
            | none => none
      else if c = 't' then
        match rest with
        | 'r' :: 'u' :: 'e' :: r => some (JVal.jbool true, r)
        | _ => none
      else if c = 'f' then
        match rest with
        | 'a' :: 'l' :: 's' :: 'e' :: r => some (JVal.jbool false, r)
        | _ => none
      else if c = 'n' then
        match rest with
        | 'u' :: 'l' :: 'l' :: r => some (JVal.jnull, r)
        | _ => none
      else if c = '-' then
        match takeDigits rest with
        | ([], _) => none
        | (ds, r) => some (JVal.jnum (-(digitsVal ds : Int)), r)
      else if c.isDigit then
        match takeDigits (c :: rest) with
        | (ds, r) => some (JVal.jnum (digitsVal ds), r)
      else none

/-- Models `json.loads`: parse one JSON value and require that only
whitespace remains. -/
def jsonParse (s : String) : Option JVal :=
  match parseJ (s.data.length + 1) s.data with
  | some (v, rest) => if skipWs rest = [] then some v else none
  | none => none

/-- Python `dict` lookup on the assoc list produced for a JSON object:
a duplicated key keeps the last occurrence, as `json.loads` does. -/
def jget (fields : List (String × JVal)) (k : String) : Option JVal :=
  match fields with
  | [] => none
  | (k1, v) :: rest =>
    match jget rest k with
    | some r => some r
    | none => if k1 = k then some v else none

/-! ## Transformation model (`src/src/core/models.py`)

`CodeModification` is the dataclass `(file_path, operation, content,
description)`.  `content` is `Optional[str]` in the source but every
consumer immediately replaces `None` by the empty string
(`transformation.content or ''`), so it is embedded as `String` with
`null`/absent collapsed to `""`.  Field values of other JSON types are
outside this model (the dataclass stores them unchecked and no claim
exercises them). -/

structure CodeModification where
  file_path : String
  operation : String
  content : String
  description : String
deriving DecidableEq, Repr

def getStrField (fields : List (String × JVal)) (k : String) : String :=
  match jget fields k with
  | some (JVal.jstr s) => s
  | _ => ""

/-- The entry loop of `create_code_transformations` (engine.py 226-233):
`mod["file_path"]` and `mod["operation"]` raise `KeyError` when absent;
`content` and `description` default to `""`; the `operation` value is
used verbatim — no membership check against create/modify/delete. -/
def buildMods : List JVal → Except String (List CodeModification)
  | [] => Except.ok []
  | v :: vs =>
    match v with
    | JVal.jobj fields =>
      match jget fields "file_path" with
      | some (JVal.jstr fp) =>
        match jget fields "operation" with
        | some (JVal.jstr op) =>
          (buildMods vs).map
            (fun rest =>
              { file_path := fp, operation := op,
                content := getStrField fields "content",
                description := getStrField fields "description" } :: rest)
        | some _ => Except.error "TypeError: unsupported operation value"
        | none => Except.error "KeyError: operation"
      | some _ => Except.error "TypeError: unsupported file_path value"
      | none => Except.error "KeyError: file_path"
    | _ => Except.error "TypeError: entry is not an object"

/-- Body of `create_code_transformations` after the model call
(engine.py 224-235), applied to the extracted JSON substring:
`data.get("transformations", [])` yields the empty plan when the key is
absent; a non-list value fails when iterated/indexed. -/
def parsePlanCore (jsonStr : String) : Except String (List CodeModification) :=
  match jsonParse jsonStr with
  | none => Except.error "JSONDecodeError"
  | some (JVal.jobj fields) =>
    match jget fields "transformations" with
    | none => Except.ok []
    | some (JVal.jarr xs) => buildMods xs
    | some _ => Except.error "TypeError: transformations is not a list"
  | some _ => Except.error "AttributeError: parsed value has no get"

/-- Models the parsing part of `create_code_transformations`
(engine.py 217-238): extract the first-to-last brace substring, decode
it, build the plan; any exception is re-raised as
`RuntimeError("Failed to create code transformations: ...")`. -/
def create_code_transformations (content : String) : Except String (List CodeModification) :=
  match parsePlanCore (extractJson content) with
  | Except.ok ts => Except.ok ts
  | Except.error e => Except.error ("Failed to create code transformations: " ++ e)

/-! ## Filesystem model for the local dispatch path

`implement_transformations` (engine.py 240-278) manipulates the local
filesystem through `os.makedirs` / `open(...,'w')` / `os.remove`.  The
OS state is embedded as a map from paths to contents plus the set of
existing directories; `open(path,'w')` fails with `FileNotFoundError`
when the parent directory does not exist, which is the failure mode the
source can actually hit on the local path. -/

structure FS where
  files : List (String × String)
  dirs : List String
deriving DecidableEq, Repr

def setFile : List (String × String) → String → String → List (String × String)
  | [], p, c => [(p, c)]
  | (q, d) :: rest, p, c =>
    if q = p then (p, c) :: rest else (q, d) :: setFile rest p c

def lookupFile (fs : FS) (p : String) : Option String :=
  (fs.files.find? (fun q => q.1 = p)).map (fun q => q.2)

def pathJoin (a b : String) : String := a ++ "/" ++ b

/-- Everything before the final slash; `""` when there is no slash,
matching `os.path.dirname` on the paths this code builds. -/
def dirname (p : String) : String :=
  match rfindIdxC '/' p.data with
  | none => ""
  | some i => String.mk (p.data.take i)

/-- Models `os.makedirs(d, exist_ok=True)`. -/
def mkdirs (fs : FS) (d : String) : FS :=
  if d ∈ fs.dirs then fs else { fs with dirs := d :: fs.dirs }

/-- Models `open(p, 'w').write(c)`: fails when the parent directory is
missing, otherwise creates or truncates the file. -/
def writeFile (fs : FS) (p c : String) : Except String FS :=
  if dirname p ∈ fs.dirs ∨ dirname p = "" then
    Except.ok { fs with files := setFile fs.files p c }
  else
    Except.error ("[Errno 2] No such file or directory: " ++ p)

/-- Models `if os.path.exists(full_path): os.remove(full_path)` —
absence is a no-op. -/
def removeFile (fs : FS) (p : String) : FS :=
  { fs with files := fs.files.filter (fun q => q.1 ≠ p) }

/-- One iteration of the local branch of `implement_transformations`
(engine.py 258-270): `create` runs `os.makedirs` on the parent then
writes; `modify` writes without creating directories; `delete` removes
if present; any other operation value matches no branch and does
nothing. -/
def applyLocalOne (repoPath : String) (fs : FS) (t : CodeModification) :
    Except String FS :=
  let fullPath := pathJoin repoPath t.file_path
  if t.operation = "create" then
    writeFile (mkdirs fs (dirname fullPath)) fullPath t.content
  else if t.operation = "modify" then
    writeFile fs fullPath t.content
  else if t.operation = "delete" then
    Except.ok (removeFile fs fullPath)
  else
    Except.ok fs

/-- The `for` loop of `implement_transformations`: each successful entry
appends its `file_path` to `implemented_files`; the first exception
aborts the loop (remaining entries are never attempted) and the
accumulated list is discarded. -/
def implementLoop (repoPath : String) :
    List CodeModification → FS → FS × Except String (List String)
  | [], fs => (fs, Except.ok [])
  | t :: ts, fs =>
    match applyLocalOne repoPath fs t with
    | Except.error e => (fs, Except.error e)
    | Except.ok fs1 =>
      match implementLoop repoPath ts fs1 with
      | (fs2, Except.ok rest) => (fs2, Except.ok (t.file_path :: rest))
      | (fs2, Except.error e) => (fs2, Except.error e)

/-- Models `implement_transformations` on a `Local` environment
(engine.py 240-278): runs the loop and re-raises any exception as
`RuntimeError("Failed to implement transformations: ...")`.  The
returned `FS` is the filesystem state when the call finishes — partial
application is never rolled back. -/
def implement_transformations (repoPath : String) (ts : List CodeModification)
    (fs : FS) : FS × Except String (List String) :=
  match implementLoop repoPath ts fs with
  | (fs1, Except.ok l) => (fs1, Except.ok l)
  | (fs1, Except.error e) =>
    (fs1, Except.error ("Failed to implement transformations: " ++ e))

/-- The remote (E2B) branch of `implement_transformations`
(engine.py 246-256): each operation is rendered as a shell command
string; `create` and `modify` build the very same `echo ... > ...`
command; unknown operations build no command at all. -/
def remoteCommand (repoPath : String) (t : CodeModification) : Option String :=
  if t.operation = "create" then
    some ("echo " ++ squoteS ++ t.content ++ squoteS ++ " > "
      ++ repoPath ++ "/" ++ t.file_path)
  else if t.operation = "modify" then
    some ("echo " ++ squoteS ++ t.content ++ squoteS ++ " > "
      ++ repoPath ++ "/" ++ t.file_path)
  else if t.operation = "delete" then
    some ("rm -f " ++ repoPath ++ "/" ++ t.file_path)
  else none

/-! ## Execution environment provisioning (engine.py 75-98) -/

inductive Env where
  | e2b : Env
  | localEnv : String → Env
deriving DecidableEq, Repr

/-- Inputs of a provisioning attempt: whether the `e2b_code_interpreter`
library imported, the configured API key, the outcome of
`Sandbox(api_key=...)` + `__aenter__` on the remote service, and the
directory `tempfile.mkdtemp` would create. -/
structure ProvisionConfig where
  e2bAvailable : Bool
  e2bApiKey : Option String
  sandboxInit : Except String Unit
  freshTmpDir : String

def sandboxFailed : Except String Unit → Bool
  | Except.error _ => true
  | Except.ok _ => false

/-- The remote path is unavailable: library missing, credential missing,
or the remote call errors. -/
def remoteUnavailable (cfg : ProvisionConfig) : Bool :=
  !cfg.e2bAvailable || cfg.e2bApiKey.isNone || sandboxFailed cfg.sandboxInit

/-- Models `create_execution_environment` (engine.py 75-98): without the
library, go local at once; otherwise try the remote path (missing key
raises `ValueError`, the sandbox call may raise) and catch any exception
by falling back to a fresh local scratch directory.  The broad
`except Exception` means the function itself never raises, which the
`Except.ok` result encodes. -/
def create_execution_environment (cfg : ProvisionConfig) : Except String Env :=
  if !cfg.e2bAvailable then
    Except.ok (Env.localEnv cfg.freshTmpDir)
  else
    match
      (match cfg.e2bApiKey with
       | none => Except.error "E2B API key required for cloud execution"
       | some _ =>
         match cfg.sandboxInit with
         | Except.error e => Except.error e
         | Except.ok _ => Except.ok Env.e2b) with
    | Except.ok env => Except.ok env
    | Except.error _ => Except.ok (Env.localEnv cfg.freshTmpDir)

/-! ## Validation (engine.py 280-312) -/

/-- A command invocation as the source issues it: the command text, the
working directory, and the timeout handed to the executor.  The local
branch passes `timeout=60` to `subprocess.run`; the remote branch calls
`run_code` with no timeout argument. -/
structure CmdRequest where
  command : String
  cwd : Option String
  timeoutSec : Option Nat
deriving DecidableEq, Repr

def validationRequest (env : Env) (repoPath : String) : CmdRequest :=
  match env with
  | Env.e2b =>
    { command := "cd " ++ repoPath
        ++ " && python -m pytest --tb=short || echo "
        ++ squoteS ++ "No pytest found" ++ squoteS,
      cwd := none, timeoutSec := none }
  | Env.localEnv _ =>
    { command := "python -m pytest --tb=short",
      cwd := some repoPath, timeoutSec := some 60 }

/-- Outcome of the local `subprocess.run` call, as the source
distinguishes them: normal completion, `TimeoutExpired`,
`FileNotFoundError`, or any other exception. -/
inductive SubprocOutcome where
  | completed : String → SubprocOutcome
  | timedOut : SubprocOutcome
  | fileNotFound : SubprocOutcome
  | raised : String → SubprocOutcome
deriving DecidableEq, Repr

structure ValidationRes where
  validation_output : String
  status : String
deriving DecidableEq, Repr

/-- Local branch of `run_code_validation` (engine.py 288-306): the inner
`try` turns a timeout into the annotation `"Validation timed out"` and a
missing interpreter into `"No pytest found"`, both with status
`"completed"`; the outer `try` turns any other exception into a
`"failed"` result.  No branch raises. -/
def run_code_validation_local (out : SubprocOutcome) : ValidationRes :=
  match out with
  | SubprocOutcome.completed stdout =>
    { validation_output := stdout, status := "completed" }
  | SubprocOutcome.timedOut =>
    { validation_output := "Validation timed out", status := "completed" }
  | SubprocOutcome.fileNotFound =>
    { validation_output := "No pytest found", status := "completed" }
  | SubprocOutcome.raised e =>
    { validation_output := "Validation execution failed: " ++ e,
      status := "failed" }

/-- Remote branch of `run_code_validation` (engine.py 283-286): the
`run_code` result text is reported as-is; an exception from the remote
call is caught by the outer `try` and reported as a `"failed"` result. -/
def run_code_validation_remote (res : Except String String) : ValidationRes :=
  match res with
  | Except.ok text => { validation_output := text, status := "completed" }
  | Except.error e =>
    { validation_output := "Validation execution failed: " ++ e,
      status := "failed" }

/-! ## The CLI pipeline `main` (engine.py 384-452)

Stage outcomes of the opaque collaborators are injected; the embedding
reproduces the `try`/`except`/`finally` control flow: the first raising
stage skips all later stages, the error is printed, and
`cleanup_resources` runs in `finally` on every path. -/

structure MainStages where
  setupGithub : Except String Unit
  provision : ProvisionConfig
  retrieveRepos : Except String Unit
  download : Except String String
  examine : Except String Unit
  generate : Except String Unit
  implementOutcome : Except String Unit
  localValidation : SubprocOutcome
  remoteValidation : Except String String
  publish : Except String Unit

structure MainRun where
  envAcquired : Option Env
  validationResult : Option ValidationRes
  publishAttempted : Bool
  errorPrinted : Option String
  cleanupCalled : Bool
deriving DecidableEq, Repr

def mainRun (s : MainStages) : MainRun :=
  match s.setupGithub with
  | Except.error e =>
    { envAcquired := none, validationResult := none, publishAttempted := false,
      errorPrinted := some e, cleanupCalled := true }
  | Except.ok _ =>
    match create_execution_environment s.provision with
    | Except.error e =>
      { envAcquired := none, validationResult := none,
        publishAttempted := false, errorPrinted := some e,
        cleanupCalled := true }
    | Except.ok env =>
      match s.retrieveRepos with
      | Except.error e =>
        { envAcquired := some env, validationResult := none,
          publishAttempted := false, errorPrinted := some e,
          cleanupCalled := true }
      | Except.ok _ =>
        match s.download with
        | Except.error e =>
          { envAcquired := some env, validationResult := none,
            publishAttempted := false, errorPrinted := some e,
            cleanupCalled := true }
        | Except.ok _repoPath =>
          match s.examine with
          | Except.error e =>
            { envAcquired := some env, validationResult := none,
              publishAttempted := false, errorPrinted := some e,
              cleanupCalled := true }
          | Except.ok _ =>
            match s.generate with
            | Except.error e =>
              { envAcquired := some env, validationResult := none,
                publishAttempted := false, errorPrinted := some e,
                cleanupCalled := true }
            | Except.ok _ =>
              match s.implementOutcome with
              | Except.error e =>
                { envAcquired := some env, validationResult := none,
                  publishAttempted := false, errorPrinted := some e,
                  cleanupCalled := true }
              | Except.ok _ =>
                let vres :=
                  match env with
                  | Env.e2b => run_code_validation_remote s.remoteValidation
                  | Env.localEnv _ => run_code_validation_local s.localValidation
                match s.publish with
                | Except.error e =>
                  { envAcquired := some env, validationResult := some vres,
                    publishAttempted := true, errorPrinted := some e,
                    cleanupCalled := true }
                | Except.ok _ =>
                  { envAcquired := some env, validationResult := some vres,
                    publishAttempted := true, errorPrinted := none,
                    cleanupCalled := true }

/-! ## The web SSE pipeline (`interface.py`, `stream_generation_events`)

The `event_generator` coroutine yields the ordered event stream; its
single `except` sets the session status to `"failed"` and yields one
error event.  Nothing in `interface.py` ever calls `cleanup_resources`,
so the embedding carries a `cleanupCalled` flag that the generator never
sets. -/

structure Ev where
  event : String
  message : String
  step : Option Nat
  totalSteps : Option Nat
  status : Option String
deriving DecidableEq, Repr

/-- Injected outcomes for one streamed session: whether the session id is
registered, the platform construction + GitHub setup, provisioning
inputs, and each later stage's result. -/
structure WebOutcomes where
  sessionFound : Bool
  initPlatform : Except String Unit
  provision : ProvisionConfig
  download : Except String String
  totalFiles : Except String Nat
  transformCount : Except String Nat
  implementPaths : Except String (List String)
  publish : Except String Unit

structure WebRun where
  events : List Ev
  finalStatus : Option String
  envAcquired : Option Env
  cleanupCalled : Bool
deriving DecidableEq, Repr

def statusEv (msg : String) (step : Nat) (st : String) : Ev :=
  { event := "status_update", message := msg, step := some step,
    totalSteps := some 6, status := some st }

def failEv (e : String) : Ev :=
  { event := "error", message := "Generation failed: " ++ e,
    step := none, totalSteps := none, status := some "error" }

/-- Models `event_generator` (interface.py 163-351).  Events and
messages follow the source verbatim; on the first raising stage the
`except` branch marks the session `"failed"` and yields the error event;
on no path — success included — is `cleanup_resources` invoked. -/
def webRun (o : WebOutcomes) : WebRun :=
  if !o.sessionFound then
    { events := [{ event := "error", message := "Session not found",
                   step := none, totalSteps := none, status := some "error" }],
      finalStatus := none, envAcquired := none, cleanupCalled := false }
  else
    match o.initPlatform with
    | Except.error e =>
      { events := [failEv e], finalStatus := some "failed",
        envAcquired := none, cleanupCalled := false }
    | Except.ok _ =>
      let ev1a := statusEv "Creating E2B cloud execution environment..." 1 "initializing"
      match create_execution_environment o.provision with
      | Except.error e =>
        { events := [ev1a, failEv e], finalStatus := some "failed",
          envAcquired := none, cleanupCalled := false }
      | Except.ok env =>
        let ev1b := statusEv "Execution environment created successfully" 1 "initializing"
        let ev2a := statusEv "Downloading repository to execution environment..." 2 "analyzing"
        match o.download with
        | Except.error e =>
          { events := [ev1a, ev1b, ev2a, failEv e], finalStatus := some "failed",
            envAcquired := some env, cleanupCalled := false }
        | Except.ok _repoPath =>
          let ev2b := statusEv "Repository downloaded successfully" 2 "analyzing"
          let ev3a := statusEv "Examining codebase structure..." 3 "analyzing"
          match o.totalFiles with
          | Except.error e =>
            { events := [ev1a, ev1b, ev2a, ev2b, ev3a, failEv e],
              finalStatus := some "failed", envAcquired := some env,
              cleanupCalled := false }
          | Except.ok n =>
            let ev3b : Ev :=
              { event := "analysis_complete",
                message := "Examination complete: " ++ toString n ++ " files found",
                step := some 3, totalSteps := some 6, status := some "analyzing" }
            let ev4a := statusEv "Creating code transformations with AI..." 4 "generating"
            match o.transformCount with
            | Except.error e =>
              { events := [ev1a, ev1b, ev2a, ev2b, ev3a, ev3b, ev4a, failEv e],
                finalStatus := some "failed", envAcquired := some env,
                cleanupCalled := false }
            | Except.ok k =>
              let ev4b : Ev :=
                { event := "modifications_generated",
                  message := "Created " ++ toString k ++ " transformations",
                  step := some 4, totalSteps := some 6, status := some "generating" }
              let ev5a := statusEv "Implementing transformations in codebase..." 5 "executing"
              match o.implementPaths with
              | Except.error e =>
                { events := [ev1a, ev1b, ev2a, ev2b, ev3a, ev3b, ev4a, ev4b,
                             ev5a, failEv e],
                  finalStatus := some "failed", envAcquired := some env,
                  cleanupCalled := false }
              | Except.ok paths =>
                let ev5b : Ev :=
                  { event := "modifications_applied",
                    message := "Implemented " ++ toString paths.length
                      ++ " transformations",
                    step := some 5, totalSteps := some 6,
                    status := some "executing" }
                let ev6a := statusEv "Publishing changes to GitHub..." 6 "deploying"
                match o.publish with
                | Except.error e =>
                  { events := [ev1a, ev1b, ev2a, ev2b, ev3a, ev3b, ev4a, ev4b,
                               ev5a, ev5b, ev6a, failEv e],
                    finalStatus := some "failed", envAcquired := some env,
                    cleanupCalled := false }
                | Except.ok _ =>
                  let ev6b : Ev :=
                    { event := "deployment_complete",
                      message := "Publication completed successfully!",
                      step := some 6, totalSteps := some 6,
                      status := some "completed" }
                  { events := [ev1a, ev1b, ev2a, ev2b, ev3a, ev3b, ev4a, ev4b,
                               ev5a, ev5b, ev6a, ev6b],
                    finalStatus := some "completed", envAcquired := some env,
                    cleanupCalled := false }

/-! ## Derived predicates used in theorem statements -/

instance {ε α : Type} [DecidableEq ε] [DecidableEq α] : DecidableEq (Except ε α) := fun a b =>
  match a, b with
  | Except.ok x, Except.ok y =>
    match decEq x y with
    | isTrue h => isTrue (by rw [h])
    | isFalse h => isFalse (fun hc => h (Except.ok.inj hc))
  | Except.error x, Except.error y =>
    match decEq x y with
    | isTrue h => isTrue (by rw [h])
    | isFalse h => isFalse (fun hc => h (Except.error.inj hc))
  | Except.ok _, Except.error _ => isFalse (fun hc => Except.noConfusion hc)
  | Except.error _, Except.ok _ => isFalse (fun hc => Except.noConfusion hc)

/-- An entry of the `transformations` array that carries string-valued
`file_path` and `operation` keys — exactly the entries the loop in
`create_code_transformations` accepts (any operation string is
accepted). -/
def entryHasKeys : JVal → Bool
  | JVal.jobj fields =>
    (match jget fields "file_path" with
     | some (JVal.jstr _) => true
     | _ => false)
    &&
    (match jget fields "operation" with
     | some (JVal.jstr _) => true
     | _ => false)
  | _ => false

/-- The `CodeModification` the loop constructs from one accepted entry. -/
def entryToMod : JVal → CodeModification
  | JVal.jobj fields =>
    { file_path := getStrField fields "file_path",
      operation := getStrField fields "operation",
      content := getStrField fields "content",
      description := getStrField fields "description" }
  | _ => { file_path := "", operation := "", content := "", description := "" }

/-! ## Helper lemmas about the extraction scan -/

theorem findIdxC_cons_self (c : Char) (l : List Char) : findIdxC c (c :: l) = some 0 := by
  simp [findIdxC]

theorem findIdxC_append_of_not_mem (c : Char) (l1 l2 : List Char) (h : c ∉ l1) :
    findIdxC c (l1 ++ l2) = (findIdxC c l2).map (· + l1.length) := by
  induction l1 with
  | nil =>
    cases h2 : findIdxC c l2 <;> simp [h2]
  | cons a t ih =>
    have ha : a ≠ c := by
      intro hac
      exact h (by simp [hac])
    have ht : c ∉ t := fun hct => h (List.mem_cons_of_mem a hct)
    have hstep : findIdxC c ((a :: t) ++ l2) = (findIdxC c (t ++ l2)).map (· + 1) := by
      simp [findIdxC, ha]
    rw [hstep, ih ht]
    cases h2 : findIdxC c l2 <;> simp [h2]
    omega

theorem findIdxC_head (c : Char) {l : List Char} (h : l.head? = some c) :
    findIdxC c l = some 0 := by
  cases l with
  | nil => simp at h
  | cons a t =>
    simp only [List.head?_cons, Option.some.injEq] at h
    rw [h]
    exact findIdxC_cons_self c t

theorem pySlice_sub (l1 l2 l3 : List Char) :
    pySlice (l1 ++ l2 ++ l3) (l1.length : Int) ((l1.length + l2.length : Nat) : Int)
      = l2 := by
  have hlen : (l1 ++ l2 ++ l3).length = l1.length + l2.length + l3.length := by
    simp [Nat.add_assoc]
  simp only [pySlice, pyIdx]
  have h1 : ¬ ((l1.length : Int) < 0) := by omega
  have h2 : ¬ (((l1.length + l2.length : Nat) : Int) < 0) := by omega
  rw [if_neg h1, if_neg h2]
  have e1 : (l1.length : Int).toNat = l1.length := by simp
  have e2 : ((l1.length + l2.length : Nat) : Int).toNat = l1.length + l2.length := by
    omega
  rw [e1, e2, hlen]
  have m1 : min (l1.length + l2.length) (l1.length + l2.length + l3.length)
      = l1.length + l2.length := by omega
  have m2 : min l1.length (l1.length + l2.length + l3.length) = l1.length := by omega
  rw [m1, m2]
  have htake : (l1 ++ l2 ++ l3).take (l1.length + l2.length) = l1 ++ l2 := by
    have := List.take_left (l1 ++ l2) l3
    simpa using this
  rw [htake]
  exact List.drop_left l1 l2

theorem rfindIdxC_getLast {c : Char} {l1 l2 : List Char} (hne : l2.getLast? = some c)
    (hnot : c ∉ l1) :
    rfindIdxC c (l2 ++ l1) = some (l2.length - 1) := by
  have hrev : l2.reverse.head? = some c := by
    rw [List.head?_reverse]
    exact hne
  have hl2 : l2 ≠ [] := by
    intro h
    rw [h] at hne
    simp at hne
  have hl2len : 1 ≤ l2.length := by
    cases l2 with
    | nil => exact absurd rfl hl2
    | cons a t => simp
  have hnotrev : c ∉ l1.reverse := by
    simpa using hnot
  unfold rfindIdxC
  rw [List.reverse_append, findIdxC_append_of_not_mem c l1.reverse l2.reverse hnotrev,
    findIdxC_head c hrev]
  simp only [Option.map_some', List.length_append, List.length_reverse]
  congr 1
  omega

theorem getLast_append_right {c : Char} (l1 : List Char) {l2 : List Char}
    (h : l2.getLast? = some c) : (l1 ++ l2).getLast? = some c := by
  rw [← List.head?_reverse] at h ⊢
  rw [List.reverse_append]
  cases hr : l2.reverse with
  | nil =>
    rw [hr] at h
    simp at h
  | cons a t =>
    rw [hr] at h
    simp only [List.head?_cons, Option.some.injEq] at h
    simp [h]

/-- The extraction scan of `create_code_transformations` recovers a
brace-delimited object exactly when the text before it contains no
opening brace and the text after it contains no closing brace. -/
theorem extractJson_embedded (pr obj post : String) (hpre : lbraceC ∉ pr.data)
    (hpost : rbraceC ∉ post.data) (h1 : obj.data.head? = some lbraceC)
    (h2 : obj.data.getLast? = some rbraceC) :
    extractJson (pr ++ obj ++ post) = obj := by
  have hne : obj.data ≠ [] := by
    intro h
    rw [h] at h1
    simp at h1
  have hlen1 : 1 ≤ obj.data.length := by
    cases hod : obj.data with
    | nil => exact absurd hod hne
    | cons a t => simp
  have hdata : (pr ++ obj ++ post).data = pr.data ++ obj.data ++ post.data := rfl
  have hfind : findIdxC lbraceC (pr.data ++ obj.data ++ post.data)
      = some pr.data.length := by
    rw [List.append_assoc, findIdxC_append_of_not_mem lbraceC pr.data _ hpre]
    have hh : (obj.data ++ post.data).head? = some lbraceC := by
      cases hod : obj.data with
      | nil => exact absurd hod hne
      | cons a t =>
        rw [hod] at h1
        simp only [List.head?_cons, Option.some.injEq] at h1
        simp [h1]
    rw [findIdxC_head lbraceC hh]
    simp
  have hrfind : rfindIdxC rbraceC (pr.data ++ obj.data ++ post.data)
      = some (pr.data.length + obj.data.length - 1) := by
    have hglast : (pr.data ++ obj.data).getLast? = some rbraceC :=
      getLast_append_right pr.data h2
    rw [rfindIdxC_getLast hglast hpost]
    simp
  show String.mk (pySlice ((pr ++ obj ++ post).data) _ _) = obj
  rw [hdata, hfind, hrfind]
  have hcast : ((pr.data.length + obj.data.length - 1 : Nat) : Int) + 1
      = ((pr.data.length + obj.data.length : Nat) : Int) := by
    omega
  rw [hcast, pySlice_sub pr.data obj.data post.data]

theorem extractJson_self (obj : String) (h1 : obj.data.head? = some lbraceC)
    (h2 : obj.data.getLast? = some rbraceC) : extractJson obj = obj := by
  have h := extractJson_embedded "" obj "" (by simp) (by simp) h1 h2
  simpa using h

/-! ## General lemma about the entry loop -/

/-- Every entry carrying string-valued `file_path` and `operation` keys is
accepted by the loop of `create_code_transformations`, whatever the
operation string is — the loop performs no membership check on it. -/
theorem buildMods_all_keys (xs : List JVal) (h : ∀ v ∈ xs, entryHasKeys v = true) :
    buildMods xs = Except.ok (xs.map entryToMod) := by
  induction xs with
  | nil => rfl
  | cons v vs ih =>
    have hv := h v (List.mem_cons_self v vs)
    have hvs : ∀ w ∈ vs, entryHasKeys w = true :=
      fun w hw => h w (List.mem_cons_of_mem v hw)
    cases v with
    | jobj fields =>
      rcases hf : jget fields "file_path" with _ | fv
      · simp [entryHasKeys, hf] at hv
      · rcases fv with _ | b | n | s | l | o
        · simp [entryHasKeys, hf] at hv
        · simp [entryHasKeys, hf] at hv
        · simp [entryHasKeys, hf] at hv
        · rcases ho : jget fields "operation" with _ | ov
          · simp [entryHasKeys, hf, ho] at hv
          · rcases ov with _ | b2 | n2 | s2 | l2 | o2
            · simp [entryHasKeys, hf, ho] at hv
            · simp [entryHasKeys, hf, ho] at hv
            · simp [entryHasKeys, hf, ho] at hv
            · simp only [buildMods, hf, ho, ih hvs, List.map_cons]
              simp [Except.map, entryToMod, getStrField, hf, ho]
            · simp [entryHasKeys, hf, ho] at hv
            · simp [entryHasKeys, hf, ho] at hv
        · simp [entryHasKeys, hf] at hv
        · simp [entryHasKeys, hf] at hv
    | jnull => simp [entryHasKeys] at hv
    | jbool b => simp [entryHasKeys] at hv
    | jnum n => simp [entryHasKeys] at hv
    | jstr s => simp [entryHasKeys] at hv
    | jarr l => simp [entryHasKeys] at hv

/-! ## Claim C1 — operation values outside create/modify/delete -/

/-- C1 counterexample: on a response whose single entry carries the
operation `"rename"` (outside create/modify/delete), parsing does not
fail: it succeeds and produces one transformation carrying `"rename"`
verbatim, contradicting the claim that parsing fails with
`InvalidTransformationError` and produces zero transformations. -/
theorem parse_unknown_operation_ce :
    (create_code_transformations
      "\x7b\"transformations\": [\x7b\"file_path\": \"f.txt\", \"operation\": \"rename\"\x7d]\x7d"
      = Except.ok [{ file_path := "f.txt", operation := "rename",
                     content := "", description := "" }])
    ∧ ("rename" ∉ (["create", "modify", "delete"] : List String)) :=
  ⟨rfl, by decide⟩

/-- C1 (amended): for every raw model-output text whose extracted object
maps `transformations` to a list of entries each carrying string-valued
`file_path` and `operation` keys, plan parsing succeeds and returns one
transformation per entry with the operation value taken verbatim — the
operation value is never validated against create/modify/delete, so no
error is raised for values outside that set. -/
theorem parse_accepts_any_operation_value (content : String)
    (fields : List (String × JVal)) (xs : List JVal)
    (hjson : jsonParse (extractJson content) = some (JVal.jobj fields))
    (htrans : jget fields "transformations" = some (JVal.jarr xs))
    (hkeys : ∀ v ∈ xs, entryHasKeys v = true) :
    create_code_transformations content = Except.ok (xs.map entryToMod) := by
  have hb := buildMods_all_keys xs hkeys
  simp [create_code_transformations, parsePlanCore, hjson, htrans, hb]

/-- C1 witness: the amended theorem applied to a concrete response whose
entry names the out-of-range operation `"rename"`. -/
theorem parse_accepts_any_operation_value_witness :
    create_code_transformations
      "\x7b\"transformations\": [\x7b\"file_path\": \"g.txt\", \"operation\": \"rename\"\x7d]\x7d"
      = Except.ok [{ file_path := "g.txt", operation := "rename",
                     content := "", description := "" }] := by
  have h := parse_accepts_any_operation_value
    "\x7b\"transformations\": [\x7b\"file_path\": \"g.txt\", \"operation\": \"rename\"\x7d]\x7d"
    [("transformations", JVal.jarr
      [JVal.jobj [("file_path", JVal.jstr "g.txt"), ("operation", JVal.jstr "rename")]])]
    [JVal.jobj [("file_path", JVal.jstr "g.txt"), ("operation", JVal.jstr "rename")]]
    rfl rfl
    (by
      intro v hv
      rw [List.mem_singleton] at hv
      subst hv
      rfl)
  exact h

/-! ## Claim C2 — stage failure in the web event stream -/

/-- C2: a web-streamed pipeline whose repository download raises has its
session marked `"failed"`, emits no event of any later stage, and ends
the stream with the failure event — but `cleanup_resources` is never
invoked (`cleanupCalled = false`) even though a local scratch
environment was acquired, so no teardown happens before (or after) the
failure is reported.  This contradicts the claim that teardown is
performed unconditionally before the failure is reported. -/
theorem web_stream_failure_no_teardown :
    webRun { sessionFound := true, initPlatform := Except.ok (),
             provision := { e2bAvailable := false, e2bApiKey := none,
                            sandboxInit := Except.ok (),
                            freshTmpDir := "/tmp/code_transform_ab" },
             download := Except.error "Failed to download repository: clone failed",
             totalFiles := Except.ok 0, transformCount := Except.ok 0,
             implementPaths := Except.ok [], publish := Except.ok () }
      = { events :=
            [statusEv "Creating E2B cloud execution environment..." 1 "initializing",
             statusEv "Execution environment created successfully" 1 "initializing",
             statusEv "Downloading repository to execution environment..." 2 "analyzing",
             failEv "Failed to download repository: clone failed"],
          finalStatus := some "failed",
          envAcquired := some (Env.localEnv "/tmp/code_transform_ab"),
          cleanupCalled := false } := rfl

/-! ## Claim C3 — failure on the second of three entries -/

/-- C3 counterexample: on a three-entry plan whose second entry fails,
`implement_transformations` does not return the applied list at all — it
raises, so the result is an error, not `Except.ok ["x.txt"]` as the
claim states; the third entry is never applied. -/
theorem apply_second_entry_failure_ce :
    ((implement_transformations "/tmp/ws/repo"
      [{ file_path := "x.txt", operation := "create", content := "A", description := "" },
       { file_path := "sub/y.txt", operation := "modify", content := "B", description := "" },
       { file_path := "z.txt", operation := "create", content := "C", description := "" }]
      { files := [], dirs := ["/tmp/ws/repo"] }).2
      = Except.error "Failed to implement transformations: [Errno 2] No such file or directory: /tmp/ws/repo/sub/y.txt")
    ∧ ((implement_transformations "/tmp/ws/repo"
      [{ file_path := "x.txt", operation := "create", content := "A", description := "" },
       { file_path := "sub/y.txt", operation := "modify", content := "B", description := "" },
       { file_path := "z.txt", operation := "create", content := "C", description := "" }]
      { files := [], dirs := ["/tmp/ws/repo"] }).2
      ≠ Except.ok ["x.txt"])
    ∧ lookupFile (implement_transformations "/tmp/ws/repo"
      [{ file_path := "x.txt", operation := "create", content := "A", description := "" },
       { file_path := "sub/y.txt", operation := "modify", content := "B", description := "" },
       { file_path := "z.txt", operation := "create", content := "C", description := "" }]
      { files := [], dirs := ["/tmp/ws/repo"] }).1 "/tmp/ws/repo/z.txt" = none :=
  ⟨rfl, by decide, rfl⟩

/-- C3 (amended): when the first of three entries applies successfully
and the second fails, `implement_transformations` raises an error
wrapping the underlying cause; the final environment is exactly the
state after the first entry (the first entry is not rolled back and the
third is never attempted), and no applied list is returned — the partial
list is discarded when the error is raised.  The error names the failed
path only insofar as the underlying cause does. -/
theorem apply_failure_aborts_and_wraps (repoPath : String) (fs0 fs1 : FS)
    (t1 t2 t3 : CodeModification) (c : String)
    (h1 : applyLocalOne repoPath fs0 t1 = Except.ok fs1)
    (h2 : applyLocalOne repoPath fs1 t2 = Except.error c) :
    implement_transformations repoPath [t1, t2, t3] fs0
      = (fs1, Except.error ("Failed to implement transformations: " ++ c)) := by
  simp [implement_transformations, implementLoop, h1, h2]

/-- C3 witness: the amended theorem at a concrete plan whose second entry
writes into a missing directory; the cause names the failed path. -/
theorem apply_failure_aborts_and_wraps_witness :
    implement_transformations "/tmp/ws/repo"
      [{ file_path := "x.txt", operation := "create", content := "A", description := "" },
       { file_path := "sub/y.txt", operation := "modify", content := "B", description := "" },
       { file_path := "z.txt", operation := "create", content := "C", description := "" }]
      { files := [], dirs := ["/tmp/ws/repo"] }
      = ({ files := [("/tmp/ws/repo/x.txt", "A")], dirs := ["/tmp/ws/repo"] },
         Except.error "Failed to implement transformations: [Errno 2] No such file or directory: /tmp/ws/repo/sub/y.txt") :=
  apply_failure_aborts_and_wraps "/tmp/ws/repo" _ _ _ _ _ _ rfl rfl

/-! ## Claim C4 — Create versus Modify -/

/-- C4 counterexample: on a fresh local environment, `modify` of
`sub/y.txt` fails (it does not create the parent directory) while
`create` of the same path with the same content succeeds — the two
operations do not have identical effect on the local dispatch path. -/
theorem create_modify_divergence_ce :
    (applyLocalOne "/tmp/ws/repo" { files := [], dirs := ["/tmp/ws/repo"] }
      { file_path := "sub/y.txt", operation := "modify", content := "B", description := "" }
      = Except.error "[Errno 2] No such file or directory: /tmp/ws/repo/sub/y.txt")
    ∧ (applyLocalOne "/tmp/ws/repo" { files := [], dirs := ["/tmp/ws/repo"] }
      { file_path := "sub/y.txt", operation := "create", content := "B", description := "" }
      = Except.ok { files := [("/tmp/ws/repo/sub/y.txt", "B")],
                    dirs := ["/tmp/ws/repo/sub", "/tmp/ws/repo"] })
    ∧ (applyLocalOne "/tmp/ws/repo" { files := [], dirs := ["/tmp/ws/repo"] }
        { file_path := "sub/y.txt", operation := "modify", content := "B", description := "" }
      ≠ applyLocalOne "/tmp/ws/repo" { files := [], dirs := ["/tmp/ws/repo"] }
        { file_path := "sub/y.txt", operation := "create", content := "B", description := "" }) :=
  ⟨rfl, rfl, by decide⟩

/-- C4 (amended): on the remote dispatch path, Create and Modify issue
the identical remote command, hence identical effect; on the local path
they have identical effect exactly when the parent directory already
exists — only Create creates missing parent directories, Modify fails on
a missing parent. -/
theorem create_modify_equivalence_amended (repoPath : String) (fs : FS)
    (t : CodeModification) :
    remoteCommand repoPath { t with operation := "create" }
      = remoteCommand repoPath { t with operation := "modify" }
    ∧ (dirname (pathJoin repoPath t.file_path) ∈ fs.dirs →
       applyLocalOne repoPath fs { t with operation := "create" }
         = applyLocalOne repoPath fs { t with operation := "modify" }) := by
  constructor
  · simp [remoteCommand]
  · intro hd
    simp [applyLocalOne, mkdirs, hd]

/-- C4 witness: the amended theorem at a concrete transformation whose
parent directory (the repository root) exists. -/
theorem create_modify_equivalence_amended_witness :
    (remoteCommand "/tmp/ws/repo"
      { file_path := "a.txt", operation := "create", content := "HI", description := "" }
      = remoteCommand "/tmp/ws/repo"
      { file_path := "a.txt", operation := "modify", content := "HI", description := "" })
    ∧ (applyLocalOne "/tmp/ws/repo" { files := [], dirs := ["/tmp/ws/repo"] }
      { file_path := "a.txt", operation := "create", content := "HI", description := "" }
      = applyLocalOne "/tmp/ws/repo" { files := [], dirs := ["/tmp/ws/repo"] }
      { file_path := "a.txt", operation := "modify", content := "HI", description := "" }) := by
  have h := create_modify_equivalence_amended "/tmp/ws/repo"
    { files := [], dirs := ["/tmp/ws/repo"] }
    { file_path := "a.txt", operation := "x", content := "HI", description := "" }
  exact ⟨h.1, h.2 (by decide)⟩

/-! ## Claim C5 — order sensitivity of apply -/

/-- C5: against a fresh environment, the plan
`[Create("a.txt","X"), Delete("a.txt")]` leaves `a.txt` absent while the
reversed plan `[Delete("a.txt"), Create("a.txt","X")]` leaves `a.txt`
present with content `"X"` — entries are processed strictly in plan
order. -/
theorem apply_order_sensitivity :
    (implement_transformations "/tmp/ws/repo"
      [{ file_path := "a.txt", operation := "create", content := "X", description := "" },
       { file_path := "a.txt", operation := "delete", content := "", description := "" }]
      { files := [], dirs := ["/tmp/ws/repo"] }
      = ({ files := [], dirs := ["/tmp/ws/repo"] }, Except.ok ["a.txt", "a.txt"]))
    ∧ lookupFile (implement_transformations "/tmp/ws/repo"
        [{ file_path := "a.txt", operation := "create", content := "X", description := "" },
         { file_path := "a.txt", operation := "delete", content := "", description := "" }]
        { files := [], dirs := ["/tmp/ws/repo"] }).1 "/tmp/ws/repo/a.txt" = none
    ∧ (implement_transformations "/tmp/ws/repo"
        [{ file_path := "a.txt", operation := "delete", content := "", description := "" },
         { file_path := "a.txt", operation := "create", content := "X", description := "" }]
        { files := [], dirs := ["/tmp/ws/repo"] }
      = ({ files := [("/tmp/ws/repo/a.txt", "X")], dirs := ["/tmp/ws/repo"] },
         Except.ok ["a.txt", "a.txt"]))
    ∧ lookupFile (implement_transformations "/tmp/ws/repo"
        [{ file_path := "a.txt", operation := "delete", content := "", description := "" },
         { file_path := "a.txt", operation := "create", content := "X", description := "" }]
        { files := [], dirs := ["/tmp/ws/repo"] }).1 "/tmp/ws/repo/a.txt" = some "X" :=
  ⟨rfl, rfl, rfl, rfl⟩

/-! ## Claim C6 — embedded object extraction -/

/-- C6 counterexample: prose containing an opening brace before the valid
object makes the first-to-last-brace extraction grab a non-JSON
substring, so parsing the full text fails while parsing the object alone
succeeds — the two results differ, contradicting the claim for arbitrary
surrounding prose. -/
theorem parse_prose_braces_ce :
    (create_code_transformations ("a\x7bb " ++ "\x7b\"transformations\": []\x7d")
      = Except.error "Failed to create code transformations: JSONDecodeError")
    ∧ (create_code_transformations "\x7b\"transformations\": []\x7d" = Except.ok [])
    ∧ (create_code_transformations ("a\x7bb " ++ "\x7b\"transformations\": []\x7d")
      ≠ create_code_transformations "\x7b\"transformations\": []\x7d") :=
  ⟨rfl, rfl, by decide⟩

/-- C6 (amended): for every text consisting of a brace-delimited object
surrounded by prose with no opening brace before it and no closing brace
after it, parsing the full text yields exactly the same result as
parsing the object text alone. -/
theorem parse_embedded_object_equiv (pr obj post : String)
    (hpre : lbraceC ∉ pr.data) (hpost : rbraceC ∉ post.data)
    (h1 : obj.data.head? = some lbraceC) (h2 : obj.data.getLast? = some rbraceC) :
    create_code_transformations (pr ++ obj ++ post)
      = create_code_transformations obj := by
  unfold create_code_transformations
  rw [extractJson_embedded pr obj post hpre hpost h1 h2, extractJson_self obj h1 h2]

/-- C6 witness: the amended theorem at a concrete valid object embedded
in brace-free prose, evaluated down to the parsed plan. -/
theorem parse_embedded_object_equiv_witness :
    create_code_transformations
      ("Sure, here is the plan: " ++ "\x7b\"transformations\": []\x7d" ++ " -- end")
      = Except.ok [] := by
  rw [parse_embedded_object_equiv "Sure, here is the plan: "
    "\x7b\"transformations\": []\x7d" " -- end"
    (by decide) (by decide) (by decide) (by decide)]
  rfl

/-! ## Claim C7 — provisioning fallback -/

/-- C7: whenever the remote path is unavailable (library absent, API key
missing, or the sandbox call errors), `create_execution_environment`
returns the fresh local scratch directory and never raises — the broad
exception handler makes every outcome an `Except.ok`. -/
theorem provision_fallback_local (cfg : ProvisionConfig)
    (h : remoteUnavailable cfg = true) :
    create_execution_environment cfg = Except.ok (Env.localEnv cfg.freshTmpDir) := by
  unfold remoteUnavailable at h
  unfold create_execution_environment
  cases hA : cfg.e2bAvailable with
  | false => simp
  | true =>
    rw [hA] at h
    cases hK : cfg.e2bApiKey with
    | none => simp [hK]
    | some k =>
      rw [hK] at h
      cases hS : cfg.sandboxInit with
      | error e => simp [hS]
      | ok u =>
        rw [hS] at h
        simp [sandboxFailed] at h

/-- C7 witness: provisioning with the library and key present but a
failing sandbox call falls back to the local scratch directory. -/
theorem provision_fallback_local_witness :
    create_execution_environment
      { e2bAvailable := true, e2bApiKey := some "key",
        sandboxInit := Except.error "network failure",
        freshTmpDir := "/tmp/code_transform_x" }
      = Except.ok (Env.localEnv "/tmp/code_transform_x") :=
  provision_fallback_local
    { e2bAvailable := true, e2bApiKey := some "key",
      sandboxInit := Except.error "network failure",
      freshTmpDir := "/tmp/code_transform_x" } rfl

/-! ## Claim C8 — validation timeout handling -/

/-- C8 counterexample: the remote (E2B) validation command is issued with
no timeout at all, so validation-stage command execution is not
time-bounded on every dispatch path as the claim states. -/
theorem remote_validation_unbounded_ce :
    (validationRequest Env.e2b "/home/user/repo").timeoutSec = none := rfl

/-- C8 (amended): on the local dispatch path the validation command runs
under a 60-second bound; when that bound is exceeded the validation step
does not raise and does not fail the pipeline — it returns the result
annotated `"Validation timed out"` with status `"completed"`, and the
pipeline proceeds to the publish stage. -/
theorem validation_timeout_nonfatal (s : MainStages) (w repoPath : String)
    (henv : create_execution_environment s.provision = Except.ok (Env.localEnv w))
    (hgh : s.setupGithub = Except.ok ())
    (hrr : s.retrieveRepos = Except.ok ())
    (hdl : s.download = Except.ok repoPath)
    (hex : s.examine = Except.ok ())
    (hgen : s.generate = Except.ok ())
    (himp : s.implementOutcome = Except.ok ())
    (hto : s.localValidation = SubprocOutcome.timedOut) :
    ((validationRequest (Env.localEnv w) repoPath).timeoutSec = some 60)
    ∧ ((mainRun s).validationResult
        = some { validation_output := "Validation timed out", status := "completed" })
    ∧ ((mainRun s).publishAttempted = true) := by
  refine ⟨rfl, ?_, ?_⟩ <;>
    simp only [mainRun, hgh, henv, hrr, hdl, hex, hgen, himp, hto] <;>
    cases hp : s.publish <;>
    simp [run_code_validation_local]

/-- C8 witness: a concrete local-environment run whose validation times
out still reports the annotated result and attempts publishing. -/
theorem validation_timeout_nonfatal_witness :
    ((validationRequest (Env.localEnv "/tmp/code_transform_w")
        "/tmp/code_transform_w/repo").timeoutSec = some 60)
    ∧ ((mainRun
        { setupGithub := Except.ok (),
          provision := { e2bAvailable := false, e2bApiKey := none,
                         sandboxInit := Except.ok (),
                         freshTmpDir := "/tmp/code_transform_w" },
          retrieveRepos := Except.ok (),
          download := Except.ok "/tmp/code_transform_w/repo",
          examine := Except.ok (), generate := Except.ok (),
          implementOutcome := Except.ok (),
          localValidation := SubprocOutcome.timedOut,
          remoteValidation := Except.ok "",
          publish := Except.ok () }).validationResult
      = some { validation_output := "Validation timed out", status := "completed" })
    ∧ ((mainRun
        { setupGithub := Except.ok (),
          provision := { e2bAvailable := false, e2bApiKey := none,
                         sandboxInit := Except.ok (),
                         freshTmpDir := "/tmp/code_transform_w" },
          retrieveRepos := Except.ok (),
          download := Except.ok "/tmp/code_transform_w/repo",
          examine := Except.ok (), generate := Except.ok (),
          implementOutcome := Except.ok (),
          localValidation := SubprocOutcome.timedOut,
          remoteValidation := Except.ok "",
          publish := Except.ok () }).publishAttempted = true) :=
  validation_timeout_nonfatal
    { setupGithub := Except.ok (),
      provision := { e2bAvailable := false, e2bApiKey := none,
                     sandboxInit := Except.ok (),
                     freshTmpDir := "/tmp/code_transform_w" },
      retrieveRepos := Except.ok (),
      download := Except.ok "/tmp/code_transform_w/repo",
      examine := Except.ok (), generate := Except.ok (),
      implementOutcome := Except.ok (),
      localValidation := SubprocOutcome.timedOut,
      remoteValidation := Except.ok "",
      publish := Except.ok () }
    "/tmp/code_transform_w" "/tmp/code_transform_w/repo"
    rfl rfl rfl rfl rfl rfl rfl rfl

/-! ## Claim C9 — unknown operations are silent no-ops yet reported applied -/

/-- C9: an entry whose operation is none of create/modify/delete matches
no branch of the loop: the environment state is left exactly as the rest
of the plan produces it, yet the entry's `file_path` is still prepended
to the returned list of successfully applied paths. -/
theorem unknown_operation_noop_still_applied (repoPath : String) (fs : FS)
    (t : CodeModification) (ts : List CodeModification)
    (h1 : t.operation ≠ "create") (h2 : t.operation ≠ "modify")
    (h3 : t.operation ≠ "delete") :
    implement_transformations repoPath (t :: ts) fs
      = ((implement_transformations repoPath ts fs).1,
         (implement_transformations repoPath ts fs).2.map
           (fun l => t.file_path :: l)) := by
  have happly : applyLocalOne repoPath fs t = Except.ok fs := by
    simp [applyLocalOne, h1, h2, h3]
  simp only [implement_transformations, implementLoop, happly]
  rcases hloop : implementLoop repoPath ts fs with ⟨fs2, r⟩
  cases r <;> simp [Except.map]

/-- C9 witness: a single `"rename"` entry leaves the fresh environment
untouched while the applied list still reports its path. -/
theorem unknown_operation_noop_still_applied_witness :
    implement_transformations "/tmp/ws/repo"
      [{ file_path := "weird.txt", operation := "rename", content := "", description := "" }]
      { files := [], dirs := ["/tmp/ws/repo"] }
      = ({ files := [], dirs := ["/tmp/ws/repo"] }, Except.ok ["weird.txt"]) := by
  have h := unknown_operation_noop_still_applied "/tmp/ws/repo"
    { files := [], dirs := ["/tmp/ws/repo"] }
    { file_path := "weird.txt", operation := "rename", content := "", description := "" }
    [] (by decide) (by decide) (by decide)
  exact h

/-! ## Claim C10 — absent or empty transformations key -/

/-- C10: for every raw text whose extracted object parses as a JSON
object that either lacks the `transformations` key or maps it to the
empty list, plan parsing succeeds with the empty plan — no error is
raised and zero transformations result. -/
theorem parse_missing_transformations_empty (content : String)
    (fields : List (String × JVal))
    (hjson : jsonParse (extractJson content) = some (JVal.jobj fields))
    (hkey : jget fields "transformations" = none
      ∨ jget fields "transformations" = some (JVal.jarr [])) :
    create_code_transformations content = Except.ok [] := by
  rcases hkey with hk | hk <;>
    simp [create_code_transformations, parsePlanCore, hjson, hk, buildMods]

/-- C10 witness: a response whose object has only a `status` key parses
to the empty plan. -/
theorem parse_missing_transformations_empty_witness :
    create_code_transformations "Answer: \x7b\"status\": \"done\"\x7d" = Except.ok [] :=
  parse_missing_transformations_empty "Answer: \x7b\"status\": \"done\"\x7d"
    [("status", JVal.jstr "done")] rfl (Or.inl rfl)
